import Mathlib

/-!
EzStylist virtual try-on application: a shallow embedding of the client-side
state machine of the main application component (outfit history, undo/redo
snapshot manager, edit orchestrator) together with proofs about its
operations.

Modelling conventions:
* Image values and prompt strings are `String`s.  Remote generation calls are
  modelled by an explicit `Except String String` argument (failure message or
  resulting image); every handler that may invoke the remote generator returns
  a `Bool` that is `true` exactly when the generator was invoked.
* JavaScript objects used as pose-keyed caches are modelled as
  insertion-ordered association lists (`List (String × String)`): overwriting
  an existing key keeps its position, a new key is appended at the end, and
  `Object.values(m)[0]` is the value of the head entry.
* JavaScript truthiness tests on strings (`if (img)`) hold on `some img` with
  `img` nonempty; nullish coalescing `a ?? b` is `Option.orElse`.
* The React `useState` fields relevant to the specified behaviour are the
  fields of `AppState`; user-facing message strings produced through the
  translation function `t` are modelled by their translation keys, and the
  message derived from a remote failure by the failure payload itself.
* Handlers are modelled atomically: the remote result is a parameter and the
  busy flag is `false` again once the handler returns (the `finally` block).
  The snapshot captured by `updateStateWithHistory` when the promise resolves
  comes from the render closure present when the handler started, so it is
  the pre-operation state.
-/

/-- The six fixed pose instructions (`POSE_INSTRUCTIONS` in `types.ts`). -/
def POSE_INSTRUCTIONS : List String :=
  ["Full frontal view, hands on hips",
   "Slightly turned, 3/4 view",
   "Side profile view",
   "Jumping in the air, mid-action shot",
   "Walking towards camera",
   "Leaning against a wall"]

/-- `POSE_INSTRUCTIONS[i]` used as a JavaScript property key: an out-of-range
index gives `undefined`, which JavaScript coerces to the property key
`"undefined"`. -/
def poseKeyOf (i : Nat) : String :=
  POSE_INSTRUCTIONS.getD i "undefined"

/-- A wardrobe catalog item (`WardrobeItem` in `types.ts`); identity is `id`. -/
structure WardrobeItem where
  id : String
  name : String
  url : String
  category : String
deriving DecidableEq, Repr

/-- One step of the outfit stack (`OutfitLayer` in `types.ts`).  The two
modifier caches are optional fields in the TypeScript type, but every layer
constructed anywhere in the sources supplies them (as `{}`), so they are
modelled as always present, with `[]` for the empty object. -/
structure OutfitLayer where
  garment : Option WardrobeItem
  poseImages : List (String × String)
  backgroundModifiedImages : List (String × String)
  lightingModifiedImages : List (String × String)
deriving DecidableEq, Repr

/-- The unit of undo/redo (`AppStateSnapshot` in the main component). -/
structure AppStateSnapshot where
  outfitHistory : List OutfitLayer
  currentOutfitIndex : Nat
  currentPoseIndex : Nat
  activeBackground : String
  activeLighting : String
deriving DecidableEq, Repr

/-- The `useState` fields of the main component that the specified behaviour
reads or writes.  `currentOutfitIndex` is a JavaScript number in the source;
it is non-negative in every modelled flow (see `handleRevertToLayer`), so it
is a `Nat` here. -/
structure AppState where
  modelImageUrl : Option String
  outfitHistory : List OutfitLayer
  currentOutfitIndex : Nat
  currentPoseIndex : Nat
  isLoading : Bool
  error : Option String
  wardrobe : List WardrobeItem
  lookbookUrl : Option String
  activeBackground : String
  activeLighting : String
  undoStack : List AppStateSnapshot
  redoStack : List AppStateSnapshot
deriving DecidableEq, Repr

/-- `defaultWardrobe` from `wardrobe.ts`: empty, users upload their own. -/
def defaultWardrobe : List WardrobeItem := []

/-- The initial values of all modelled `useState` fields. -/
def initialState : AppState :=
  { modelImageUrl := none
    outfitHistory := []
    currentOutfitIndex := 0
    currentPoseIndex := 0
    isLoading := false
    error := none
    wardrobe := defaultWardrobe
    lookbookUrl := none
    activeBackground := "Default"
    activeLighting := "Default"
    undoStack := []
    redoStack := [] }

/-- Property read `m[k]` on a JavaScript object used as a map. -/
def omLookup (m : List (String × String)) (k : String) : Option String :=
  (m.find? (fun p => p.1 == k)).map (fun p => p.2)

/-- Property write `m[k] = v` on a JavaScript object used as a map:
an existing key is overwritten in place, a new key is appended. -/
def omSet (m : List (String × String)) (k v : String) : List (String × String) :=
  if (m.find? (fun p => p.1 == k)).isSome then
    m.map (fun p => if p.1 == k then (k, v) else p)
  else m ++ [(k, v)]

/-- `Object.values(m)[0]`: the first-inserted value of the object. -/
def omFirst (m : List (String × String)) : Option String :=
  m.head?.map (fun p => p.2)

/-- JavaScript truthiness of an optional string: absent (`undefined`) and the
empty string are falsy. -/
def truthy : Option String → Bool
  | none => false
  | some v => !(v == "")

/-- `activeOutfitLayers`: `outfitHistory.slice(0, currentOutfitIndex + 1)`. -/
def activeOutfitLayers (s : AppState) : List OutfitLayer :=
  s.outfitHistory.take (s.currentOutfitIndex + 1)

/-- The derived `displayImageUrl` memo of the main component.  Lines 100-105
of the source test truthiness of the cache entries; line 107 uses nullish
coalescing (`??`), so an empty-string pose image would not fall through
there. -/
def displayImageUrl (s : AppState) : Option String :=
  if s.outfitHistory.isEmpty then s.modelImageUrl else
  match s.outfitHistory.get? s.currentOutfitIndex with
  | none => s.modelImageUrl
  | some currentLayer =>
    let poseInstruction := poseKeyOf s.currentPoseIndex
    if s.activeLighting ≠ "Default" ∧
        truthy (omLookup currentLayer.lightingModifiedImages poseInstruction) then
      omLookup currentLayer.lightingModifiedImages poseInstruction
    else if s.activeBackground ≠ "Default" ∧
        truthy (omLookup currentLayer.backgroundModifiedImages poseInstruction) then
      omLookup currentLayer.backgroundModifiedImages poseInstruction
    else
      (omLookup currentLayer.poseImages poseInstruction) <|>
        omFirst currentLayer.poseImages

/-- `getCurrentStateSnapshot`. -/
def getCurrentStateSnapshot (s : AppState) : AppStateSnapshot :=
  { outfitHistory := s.outfitHistory
    currentOutfitIndex := s.currentOutfitIndex
    currentPoseIndex := s.currentPoseIndex
    activeBackground := s.activeBackground
    activeLighting := s.activeLighting }

/-- `applyStateSnapshot`. -/
def applyStateSnapshot (snapshot : AppStateSnapshot) (s : AppState) : AppState :=
  { s with
    outfitHistory := snapshot.outfitHistory
    currentOutfitIndex := snapshot.currentOutfitIndex
    currentPoseIndex := snapshot.currentPoseIndex
    activeBackground := snapshot.activeBackground
    activeLighting := snapshot.activeLighting }

/-- The commit step shared by every snapshot-tracked mutation: push `pushed`
onto the undo stack, clear the redo stack, install `next`.  In the source the
pushed value is the object captured by `getCurrentStateSnapshot`; it is a
separate argument here because three reducers mutate, in place, a map that
this captured object still references (see `handlePoseSelect`,
`handleBackgroundChange`, `handleLightingChange`). -/
def pushCommit (pushed next : AppStateSnapshot) (s : AppState) : AppState :=
  applyStateSnapshot next
    { s with undoStack := s.undoStack ++ [pushed], redoStack := [] }

/-- `updateStateWithHistory` for reducers that build the next snapshot without
mutating anything reachable from the captured one. -/
def updateStateWithHistory (updater : AppStateSnapshot → AppStateSnapshot)
    (s : AppState) : AppState :=
  let currentState := getCurrentStateSnapshot s
  pushCommit currentState (updater currentState) s

/-- `handleUndo`: the top of a stack is the end of the array. -/
def handleUndo (s : AppState) : AppState :=
  match s.undoStack.getLast? with
  | none => s
  | some lastState =>
      applyStateSnapshot lastState
        { s with
          redoStack := s.redoStack ++ [getCurrentStateSnapshot s]
          undoStack := s.undoStack.dropLast }

/-- `handleRedo`. -/
def handleRedo (s : AppState) : AppState :=
  match s.redoStack.getLast? with
  | none => s
  | some nextState =>
      applyStateSnapshot nextState
        { s with
          undoStack := s.undoStack ++ [getCurrentStateSnapshot s]
          redoStack := s.redoStack.dropLast }

/-- `handleModelFinalized`: install the generated model image as the base
layer.  It does not touch the pose index or the active modifiers. -/
def handleModelFinalized (url : String) (s : AppState) : AppState :=
  { s with
    modelImageUrl := some url
    outfitHistory :=
      [{ garment := none
         poseImages := [(poseKeyOf 0, url)]
         backgroundModifiedImages := []
         lightingModifiedImages := [] }]
    currentOutfitIndex := 0
    undoStack := []
    redoStack := [] }

/-- `handleStartOver`: every modelled field is reset to its initial value. -/
def handleStartOver (_s : AppState) : AppState :=
  initialState

/-- Write-through of index `i` of a copied history array
(`const newHistory = [...prev.outfitHistory]; ...; newHistory[i] = updatedLayer`).
Out-of-range indices do not occur in the modelled flows (each use is guarded
by a successful lookup at the same index). -/
def setLayer (h : List OutfitLayer) (i : Nat) (f : OutfitLayer → OutfitLayer) :
    List OutfitLayer :=
  match h.get? i with
  | some l => h.set i (f l)
  | none => h

/-- The redo-by-reselection test at the top of `handleGarmentSelect`:
`outfitHistory[currentOutfitIndex + 1]` exists and its garment has the
selected garment's id. -/
def reselectHit (garmentInfo : WardrobeItem) (s : AppState) : Bool :=
  match s.outfitHistory.get? (s.currentOutfitIndex + 1) with
  | some nextLayer =>
    match nextLayer.garment with
    | some g => g.id == garmentInfo.id
    | none => false
  | none => false

/-- The `setWardrobe` updater of `handleGarmentSelect`: merge the garment
into the catalog unless an item with the same id is already present. -/
def mergeWardrobe (prev : List WardrobeItem) (garmentInfo : WardrobeItem) :
    List WardrobeItem :=
  if prev.any (fun item => item.id == garmentInfo.id) then prev
  else prev ++ [garmentInfo]

/-- `handleGarmentSelect`.  The garment file argument only feeds the remote
call and is dropped; `remote` is the result of `generateVirtualTryOnImage`.
The reselection branch commits without consulting `remote`.  On success the
garment is merged into the wardrobe, idempotently by id. -/
def handleGarmentSelect (remote : Except String String)
    (garmentInfo : WardrobeItem) (s : AppState) : AppState × Bool :=
  if !(truthy (displayImageUrl s)) || s.isLoading then (s, false) else
  if reselectHit garmentInfo s then
    (updateStateWithHistory (fun prevState =>
      { prevState with
        currentOutfitIndex := prevState.currentOutfitIndex + 1
        currentPoseIndex := 0
        activeBackground := "Default"
        activeLighting := "Default" }) s, false)
  else
    match remote with
    | .ok newImageUrl =>
      let s1 := updateStateWithHistory (fun prevState =>
        let newLayer : OutfitLayer :=
          { garment := some garmentInfo
            poseImages := [(poseKeyOf 0, newImageUrl)]
            backgroundModifiedImages := []
            lightingModifiedImages := [] }
        let newHistory := prevState.outfitHistory.take (prevState.currentOutfitIndex + 1)
        { outfitHistory := newHistory ++ [newLayer]
          currentOutfitIndex := newHistory.length
          currentPoseIndex := 0
          activeBackground := "Default"
          activeLighting := "Default" }) { s with error := none }
      ({ s1 with
          wardrobe := mergeWardrobe s1.wardrobe garmentInfo
          isLoading := false }, true)
    | .error e => ({ s with error := some e, isLoading := false }, true)

/-- `handleRevertToLayer`.  The only caller is the remove button of
`OutfitStack`, which is rendered only for active layers with index `> 0`
(`canEdit = index > 0`), so `index - 1` agrees between `Nat` and JavaScript
subtraction in every modelled call. -/
def handleRevertToLayer (index : Nat) (s : AppState) : AppState :=
  updateStateWithHistory (fun prevState =>
    { prevState with
      outfitHistory := prevState.outfitHistory.take index
      currentOutfitIndex := index - 1
      currentPoseIndex := 0
      activeBackground := "Default"
      activeLighting := "Default" }) s

/-- `handlePoseSelect`.  A lookup failure at `currentOutfitIndex` throws in
JavaScript before any state is written, so it is modelled as leaving the
state unchanged.  On a cache miss the pose index is optimistically set before
the remote call and rolled back in the `catch` branch; atomically the failure
case therefore keeps the original pose index.  The success reducer copies the
layer with a spread, which shares the `poseImages` object with the layer held
by the snapshot just captured for the undo stack; the in-place write
`updatedLayer.poseImages[poseInstruction] = newImageUrl` is therefore visible
through the pushed snapshot as well, which is why the pushed snapshot below
carries the same written history. -/
def handlePoseSelect (remote : Except String String) (newIndex : Nat)
    (s : AppState) : AppState × Bool :=
  if s.isLoading || s.outfitHistory.isEmpty || newIndex == s.currentPoseIndex then
    (s, false)
  else
    match s.outfitHistory.get? s.currentOutfitIndex with
    | none => (s, false)
    | some currentLayer =>
      let poseInstruction := poseKeyOf newIndex
      if truthy (omLookup currentLayer.poseImages poseInstruction) then
        (updateStateWithHistory (fun prevState =>
          { prevState with
            currentPoseIndex := newIndex
            activeBackground := "Default"
            activeLighting := "Default" }) s, false)
      else if !(truthy (omFirst currentLayer.poseImages)) then (s, false)
      else
        match remote with
        | .ok newImageUrl =>
          let currentState := getCurrentStateSnapshot s
          let write := fun (h : List OutfitLayer) =>
            setLayer h s.currentOutfitIndex (fun l =>
              { l with poseImages := omSet l.poseImages poseInstruction newImageUrl })
          let nextState :=
            { currentState with
              outfitHistory := write currentState.outfitHistory
              currentPoseIndex := newIndex
              activeBackground := "Default"
              activeLighting := "Default" }
          let pushedState :=
            { currentState with outfitHistory := write currentState.outfitHistory }
          ({ pushCommit pushedState nextState s with error := none, isLoading := false },
            true)
        | .error e => ({ s with error := some e, isLoading := false }, true)

/-- `handleColorChangeAtIndex`.  The base image is the default-pose entry of
the layer at `index`, with a nullish fallback to its first-inserted pose
image; an absent layer throws in JavaScript before any state is written and
is modelled as leaving the state unchanged.  The success reducer rebuilds the
layer from fresh literals (no shared map), truncates everything after
`index`, and moves the cursor to `index`. -/
def handleColorChangeAtIndex (remote : Except String String) (index : Nat)
    (newColor : String) (s : AppState) : AppState × Bool :=
  let baseImage := (s.outfitHistory.get? index).bind (fun layerToEdit =>
    (omLookup layerToEdit.poseImages (poseKeyOf 0)) <|> omFirst layerToEdit.poseImages)
  if !(truthy baseImage) || s.isLoading then (s, false) else
  match remote with
  | .ok newImageUrl =>
    ({ updateStateWithHistory (fun prevState =>
        let historyBeforeEdit := prevState.outfitHistory.take index
        let editedLayer : OutfitLayer :=
          { garment := (prevState.outfitHistory.get? index).bind (fun l => l.garment)
            poseImages := [(poseKeyOf 0, newImageUrl)]
            backgroundModifiedImages := []
            lightingModifiedImages := [] }
        { prevState with
          outfitHistory := historyBeforeEdit ++ [editedLayer]
          currentOutfitIndex := index
          currentPoseIndex := 0
          activeBackground := "Default"
          activeLighting := "Default" }) { s with error := none }
        with isLoading := false }, true)
  | .error e => ({ s with error := some e, isLoading := false }, true)

/-- `handleMagicWandEditAtIndex`: the same truncate-and-replace-base pattern
as `handleColorChangeAtIndex`, with the free-form instruction fed to the
remote call. -/
def handleMagicWandEditAtIndex (remote : Except String String) (index : Nat)
    (instruction : String) (s : AppState) : AppState × Bool :=
  let baseImage := (s.outfitHistory.get? index).bind (fun layerToEdit =>
    (omLookup layerToEdit.poseImages (poseKeyOf 0)) <|> omFirst layerToEdit.poseImages)
  if !(truthy baseImage) || s.isLoading then (s, false) else
  match remote with
  | .ok newImageUrl =>
    ({ updateStateWithHistory (fun prevState =>
        let historyBeforeEdit := prevState.outfitHistory.take index
        let editedLayer : OutfitLayer :=
          { garment := (prevState.outfitHistory.get? index).bind (fun l => l.garment)
            poseImages := [(poseKeyOf 0, newImageUrl)]
            backgroundModifiedImages := []
            lightingModifiedImages := [] }
        { prevState with
          outfitHistory := historyBeforeEdit ++ [editedLayer]
          currentOutfitIndex := index
          currentPoseIndex := 0
          activeBackground := "Default"
          activeLighting := "Default" }) { s with error := none }
        with isLoading := false }, true)
  | .error e => ({ s with error := some e, isLoading := false }, true)

/-- `handleBackgroundChange`.  `"Default"` short-circuits to a pure snapshot
commit; otherwise the exact current-pose base image of the current layer is
required (no fallback).  The `"Studio Background"` sentinel is mapped to a
concrete instruction only for the remote call; the stored `activeBackground`
is the unmapped prompt.  The success reducer copies the current layer with a
spread; its `backgroundModifiedImages` object is present on every layer the
sources construct, so the guarded re-initialisation is never taken and the
in-place write goes to the map shared with the snapshot captured for the undo
stack, hence the pushed snapshot below carries the written history. -/
def handleBackgroundChange (remote : Except String String)
    (backgroundPrompt : String) (s : AppState) : AppState × Bool :=
  if s.isLoading then (s, false) else
  if backgroundPrompt == "Default" then
    (updateStateWithHistory (fun prevState =>
      { prevState with activeBackground := "Default" }) s, false)
  else
    let currentPoseKey := poseKeyOf s.currentPoseIndex
    let baseImageForModification := (s.outfitHistory.get? s.currentOutfitIndex).bind
      (fun currentLayer => omLookup currentLayer.poseImages currentPoseKey)
    if !(truthy baseImageForModification) then
      ({ s with error := some "app.error.changeBackground" }, false)
    else
      match remote with
      | .ok newImageUrl =>
        let currentState := getCurrentStateSnapshot s
        let write := fun (h : List OutfitLayer) =>
          setLayer h s.currentOutfitIndex (fun l =>
            { l with backgroundModifiedImages :=
                omSet l.backgroundModifiedImages currentPoseKey newImageUrl })
        let nextState :=
          { currentState with
            outfitHistory := write currentState.outfitHistory
            activeBackground := backgroundPrompt
            activeLighting := "Default" }
        let pushedState :=
          { currentState with outfitHistory := write currentState.outfitHistory }
        ({ pushCommit pushedState nextState s with error := none, isLoading := false },
          true)
      | .error e => ({ s with error := some e, isLoading := false }, true)

/-- `handleLightingChange`: symmetric to `handleBackgroundChange`, storing
into the lighting cache and forcing `activeBackground` to `"Default"`.  The
same shared-map in-place write applies. -/
def handleLightingChange (remote : Except String String)
    (lightingPrompt : String) (s : AppState) : AppState × Bool :=
  if s.isLoading then (s, false) else
  if lightingPrompt == "Default" then
    (updateStateWithHistory (fun prevState =>
      { prevState with activeLighting := "Default" }) s, false)
  else
    let currentPoseKey := poseKeyOf s.currentPoseIndex
    let baseImageForModification := (s.outfitHistory.get? s.currentOutfitIndex).bind
      (fun currentLayer => omLookup currentLayer.poseImages currentPoseKey)
    if !(truthy baseImageForModification) then
      ({ s with error := some "app.error.changeLighting" }, false)
    else
      match remote with
      | .ok newImageUrl =>
        let currentState := getCurrentStateSnapshot s
        let write := fun (h : List OutfitLayer) =>
          setLayer h s.currentOutfitIndex (fun l =>
            { l with lightingModifiedImages :=
                omSet l.lightingModifiedImages currentPoseKey newImageUrl })
        let nextState :=
          { currentState with
            outfitHistory := write currentState.outfitHistory
            activeLighting := lightingPrompt
            activeBackground := "Default" }
        let pushedState :=
          { currentState with outfitHistory := write currentState.outfitHistory }
        ({ pushCommit pushedState nextState s with error := none, isLoading := false },
          true)
      | .error e => ({ s with error := some e, isLoading := false }, true)

/-- `handleGenerateLookbook`.  The composite result is shown in a viewer and
never folded into the history; only the remote call's success/failure and the
error field matter to the modelled state. -/
def handleGenerateLookbook (remote : Except String String) (s : AppState) :
    AppState × Bool :=
  if s.isLoading ∨ (activeOutfitLayers s).length ≤ 1 then
    ({ s with error := some "app.error.lookbook.addGarment" }, false)
  else
    let imageUrls := (activeOutfitLayers s).filterMap (fun layer =>
      (omFirst layer.poseImages).filter (fun url => !(url == "")))
    if imageUrls.length > 1 then
      match remote with
      | .ok resultUrl =>
        ({ s with error := none, lookbookUrl := some resultUrl, isLoading := false },
          true)
      | .error e => ({ s with error := some e, isLoading := false }, true)
    else ({ s with error := some "app.error.lookbook.notEnough", isLoading := false },
      false)

/-- `handleImageCrop`: a local commit with no remote call and, notably, no
busy guard.  The reducer keeps the cursor and the pose index, replaces the
current layer's pose images with the single cropped entry at the current pose
key, clears its modifier caches, resets both active modifiers, and keeps only
the history strictly before the cursor plus the replaced layer
(`[...historyBeforeEdit, croppedLayer]`).  A missing layer at the cursor
spreads as an absent garment. -/
def handleImageCrop (croppedImageUrl : String) (s : AppState) : AppState :=
  if croppedImageUrl == "" then s else
  updateStateWithHistory (fun prevState =>
    let indexToEdit := prevState.currentOutfitIndex
    let historyBeforeEdit := prevState.outfitHistory.take indexToEdit
    let croppedLayer : OutfitLayer :=
      { garment := (prevState.outfitHistory.get? indexToEdit).bind (fun l => l.garment)
        poseImages := [(poseKeyOf prevState.currentPoseIndex, croppedImageUrl)]
        backgroundModifiedImages := []
        lightingModifiedImages := [] }
    { prevState with
      outfitHistory := historyBeforeEdit ++ [croppedLayer]
      currentOutfitIndex := indexToEdit
      currentPoseIndex := prevState.currentPoseIndex
      activeBackground := "Default"
      activeLighting := "Default" }) s

/-- Display-image selection rule exactly as the specification words it
(lighting cache entry first, then background cache entry, then the pose
image with a fallback to the first-inserted pose image).  This definition
follows the specification text and exists only to be compared with
`displayImageUrl`, which follows the source. -/
def displayImageSpecRule (layer : OutfitLayer)
    (poseKey background lighting : String) : Option String :=
  if lighting ≠ "Default" ∧ (omLookup layer.lightingModifiedImages poseKey).isSome then
    omLookup layer.lightingModifiedImages poseKey
  else if background ≠ "Default" ∧
      (omLookup layer.backgroundModifiedImages poseKey).isSome then
    omLookup layer.backgroundModifiedImages poseKey
  else
    match omLookup layer.poseImages poseKey with
    | some v => some v
    | none => omFirst layer.poseImages

/-- A sample wardrobe garment for concrete scenarios. -/
def sampleGarment : WardrobeItem :=
  { id := "g1", name := "Jacket", url := "data:garment1", category := "top" }

/-- A second sample garment with a different id. -/
def sampleGarment2 : WardrobeItem :=
  { id := "g2", name := "Scarf", url := "data:garment2", category := "accessory" }

/-- The state right after the generated model image is installed. -/
def modelReadyState : AppState :=
  handleModelFinalized "data:model" initialState

/-- A garment layer as `handleGarmentSelect` would build it from
`sampleGarment`. -/
def sampleLayer1 : OutfitLayer :=
  { garment := some sampleGarment
    poseImages := [(poseKeyOf 0, "data:look1")]
    backgroundModifiedImages := []
    lightingModifiedImages := [] }

/-- A state whose history holds a dormant layer just ahead of the cursor
(cursor 0, history of length 2), as after one apply-garment and one revert
or undo. -/
def dormantState : AppState :=
  { modelReadyState with
    outfitHistory := modelReadyState.outfitHistory ++ [sampleLayer1] }

/-- A mid-flight state: the busy flag raised over `dormantState`. -/
def busyState : AppState :=
  { dormantState with isLoading := true }

/-- One user-initiated transition of the main component: every mutating
entry point, with arbitrary arguments and arbitrary remote outcomes. -/
inductive Step : AppState → AppState → Prop
  | modelFinalized (url : String) (s : AppState) : Step s (handleModelFinalized url s)
  | startOver (s : AppState) : Step s (handleStartOver s)
  | garmentSelect (r : Except String String) (g : WardrobeItem) (s : AppState) :
      Step s (handleGarmentSelect r g s).1
  | revertToLayer (i : Nat) (s : AppState) : Step s (handleRevertToLayer i s)
  | poseSelect (r : Except String String) (i : Nat) (s : AppState) :
      Step s (handlePoseSelect r i s).1
  | colorChange (r : Except String String) (i : Nat) (c : String) (s : AppState) :
      Step s (handleColorChangeAtIndex r i c s).1
  | backgroundChange (r : Except String String) (p : String) (s : AppState) :
      Step s (handleBackgroundChange r p s).1
  | lightingChange (r : Except String String) (p : String) (s : AppState) :
      Step s (handleLightingChange r p s).1
  | magicWand (r : Except String String) (i : Nat) (ins : String) (s : AppState) :
      Step s (handleMagicWandEditAtIndex r i ins s).1
  | lookbook (r : Except String String) (s : AppState) :
      Step s (handleGenerateLookbook r s).1
  | crop (url : String) (s : AppState) : Step s (handleImageCrop url s)
  | undo (s : AppState) : Step s (handleUndo s)
  | redo (s : AppState) : Step s (handleRedo s)

/-- Reachability of an application state from the initial one. -/
inductive Reachable : AppState → Prop
  | init : Reachable initialState
  | step {s s' : AppState} : Reachable s → Step s s' → Reachable s'

/-- Transitions restricted to apply-garment and revert-to-layer.  Revert
indices are the ones the `OutfitStack` UI can produce: the index of a
rendered active layer whose remove button exists (`canEdit = index > 0`),
hence `1 ≤ i ≤ currentOutfitIndex`. -/
inductive GarmentRevertStep : AppState → AppState → Prop
  | garmentSelect (r : Except String String) (g : WardrobeItem) (s : AppState) :
      GarmentRevertStep s (handleGarmentSelect r g s).1
  | revertToLayer (i : Nat) (s : AppState) (h1 : 1 ≤ i)
      (h2 : i ≤ s.currentOutfitIndex) :
      GarmentRevertStep s (handleRevertToLayer i s)

/-- States reachable from a freshly finalized model by apply-garment and
revert-to-layer operations only. -/
inductive GarmentRevertReachable : AppState → Prop
  | init (url : String) :
      GarmentRevertReachable (handleModelFinalized url initialState)
  | step {s s' : AppState} : GarmentRevertReachable s → GarmentRevertStep s s' →
      GarmentRevertReachable s'

/-- At most one of the two active modifiers of a snapshot is non-default. -/
def exclS (snap : AppStateSnapshot) : Prop :=
  snap.activeBackground = "Default" ∨ snap.activeLighting = "Default"

/-- Modifier exclusivity of the live state and of every snapshot held on
either stack (the stacks matter because undo/redo re-install them). -/
def ExclInv (s : AppState) : Prop :=
  exclS (getCurrentStateSnapshot s) ∧
  (∀ snap ∈ s.undoStack, exclS snap) ∧
  (∀ snap ∈ s.redoStack, exclS snap)

/-- Structural invariant maintained by apply-garment / revert sequences:
non-empty history whose head is the base layer, with the cursor inside the
history. -/
def BaseInv (s : AppState) : Prop :=
  s.outfitHistory ≠ [] ∧
  (s.outfitHistory.head?.map (fun l => l.garment)) = some none ∧
  s.currentOutfitIndex + 1 ≤ s.outfitHistory.length

/-- What a committed crop leaves behind, relative to the pre-state: the
history truncated at the cursor with the replaced layer appended, cursor and
pose index unchanged, both modifiers reset, the pre-state snapshot pushed for
undo and the redo stack cleared. -/
def CropSpec (s : AppState) (url : String) : Prop :=
  (handleImageCrop url s).outfitHistory =
      s.outfitHistory.take s.currentOutfitIndex ++
        [{ garment := (s.outfitHistory.get? s.currentOutfitIndex).bind (fun l => l.garment)
           poseImages := [(poseKeyOf s.currentPoseIndex, url)]
           backgroundModifiedImages := []
           lightingModifiedImages := [] }] ∧
  (handleImageCrop url s).currentOutfitIndex = s.currentOutfitIndex ∧
  (handleImageCrop url s).currentPoseIndex = s.currentPoseIndex ∧
  (handleImageCrop url s).activeBackground = "Default" ∧
  (handleImageCrop url s).activeLighting = "Default" ∧
  (handleImageCrop url s).undoStack = s.undoStack ++ [getCurrentStateSnapshot s] ∧
  (handleImageCrop url s).redoStack = []

/-- The result `t` of a successful remote edit at `index` over pre-state `s`:
history truncated to length `index + 1`, the layer at `index` rebuilt with the
single default-pose entry and empty caches, cursor at `index`, pose and
modifiers reset. -/
def RemoteEditTruncationSpec (t s : AppState) (index : Nat)
    (newImageUrl : String) : Prop :=
  t.outfitHistory.length = index + 1 ∧
  t.outfitHistory.get? index =
    some { garment := (s.outfitHistory.get? index).bind (fun l => l.garment)
           poseImages := [(poseKeyOf 0, newImageUrl)]
           backgroundModifiedImages := []
           lightingModifiedImages := [] } ∧
  t.currentOutfitIndex = index ∧
  t.currentPoseIndex = 0 ∧
  t.activeBackground = "Default" ∧
  t.activeLighting = "Default"

/-- The result `t` of a redo-by-reselection over pre-state `s`: history and
wardrobe untouched, cursor advanced, pose and modifiers reset, one snapshot
pushed for undo, redo cleared. -/
def ReselectSpec (t s : AppState) : Prop :=
  t.outfitHistory = s.outfitHistory ∧
  t.currentOutfitIndex = s.currentOutfitIndex + 1 ∧
  t.currentPoseIndex = 0 ∧
  t.activeBackground = "Default" ∧
  t.activeLighting = "Default" ∧
  t.wardrobe = s.wardrobe ∧
  t.undoStack = s.undoStack ++ [getCurrentStateSnapshot s] ∧
  t.redoStack = []

/-- While the busy flag is raised, each remote-capable operation other than
crop returns the state unchanged (the lookbook guard alone writes its error
message) and does not invoke the remote generator. -/
def BusyGateSpec (s : AppState) (r : Except String String) (g : WardrobeItem)
    (i j : Nat) (c ins p q : String) : Prop :=
  handleGarmentSelect r g s = (s, false) ∧
  handlePoseSelect r j s = (s, false) ∧
  handleColorChangeAtIndex r i c s = (s, false) ∧
  handleMagicWandEditAtIndex r i ins s = (s, false) ∧
  handleBackgroundChange r p s = (s, false) ∧
  handleLightingChange r q s = (s, false) ∧
  handleGenerateLookbook r s =
    ({ s with error := some "app.error.lookbook.addGarment" }, false)

/-- Atomicity of a failed operation: the snapshot-managed fields and both
stacks of `t` equal those of the pre-state `s`. -/
def FailureAtomicSpec (t s : AppState) : Prop :=
  getCurrentStateSnapshot t = getCurrentStateSnapshot s ∧
  t.undoStack = s.undoStack ∧
  t.redoStack = s.redoStack

lemma getCurrentStateSnapshot_pushCommit (pushed next : AppStateSnapshot)
    (s : AppState) : getCurrentStateSnapshot (pushCommit pushed next s) = next := rfl

lemma undoStack_pushCommit (pushed next : AppStateSnapshot) (s : AppState) :
    (pushCommit pushed next s).undoStack = s.undoStack ++ [pushed] := rfl

lemma redoStack_pushCommit (pushed next : AppStateSnapshot) (s : AppState) :
    (pushCommit pushed next s).redoStack = [] := rfl

lemma exclInv_congr {s t : AppState} (h : ExclInv s)
    (hb : t.activeBackground = s.activeBackground)
    (hl : t.activeLighting = s.activeLighting)
    (hu : t.undoStack = s.undoStack) (hr : t.redoStack = s.redoStack) :
    ExclInv t := by
  obtain ⟨h1, h2, h3⟩ := h
  refine ⟨?_, ?_, ?_⟩
  · simp only [ExclInv, exclS, getCurrentStateSnapshot] at h1 ⊢
    rw [hb, hl]; exact h1
  · rw [hu]; exact h2
  · rw [hr]; exact h3

lemma exclInv_pushCommit {s : AppState} {pushed next : AppStateSnapshot}
    (h : ExclInv s) (hp : exclS pushed) (hn : exclS next) :
    ExclInv (pushCommit pushed next s) := by
  refine ⟨?_, ?_, ?_⟩
  · rw [getCurrentStateSnapshot_pushCommit]; exact hn
  · intro snap hsnap
    rw [undoStack_pushCommit] at hsnap
    rcases List.mem_append.1 hsnap with hmem | hmem
    · exact h.2.1 snap hmem
    · rcases List.mem_singleton.1 hmem with rfl
      exact hp
  · intro snap hsnap
    rw [redoStack_pushCommit] at hsnap
    cases hsnap

lemma exclInv_updateState {s : AppState} {f : AppStateSnapshot → AppStateSnapshot}
    (h : ExclInv s) (hf : exclS (f (getCurrentStateSnapshot s))) :
    ExclInv (updateStateWithHistory f s) := by
  unfold updateStateWithHistory
  exact exclInv_pushCommit h h.1 hf

lemma exclInv_errorOnly {s : AppState} (h : ExclInv s) (e : Option String) :
    ExclInv { s with error := e } :=
  exclInv_congr h rfl rfl rfl rfl

lemma exclInv_errorLoading {s : AppState} (h : ExclInv s) (e : Option String)
    (b : Bool) : ExclInv { s with error := e, isLoading := b } :=
  exclInv_congr h rfl rfl rfl rfl

lemma exclInv_wardrobeLoading {s : AppState} (h : ExclInv s)
    (w : List WardrobeItem) (b : Bool) :
    ExclInv { s with wardrobe := w, isLoading := b } :=
  exclInv_congr h rfl rfl rfl rfl

lemma exclInv_loadingOnly {s : AppState} (h : ExclInv s) (b : Bool) :
    ExclInv { s with isLoading := b } :=
  exclInv_congr h rfl rfl rfl rfl

lemma exclInv_commitLike (s : AppState) (pushed next : AppStateSnapshot)
    (h : ExclInv s) (hp : exclS pushed) (hn : exclS next)
    (e : Option String) (b : Bool) :
    ExclInv { pushCommit pushed next s with error := e, isLoading := b } :=
  exclInv_congr (exclInv_pushCommit h hp hn) rfl rfl rfl rfl

lemma exclInv_handleGarmentSelect (r : Except String String) (g : WardrobeItem)
    {s : AppState} (h : ExclInv s) : ExclInv (handleGarmentSelect r g s).1 := by
  unfold handleGarmentSelect
  split
  · exact h
  · split
    · exact exclInv_updateState h (Or.inl rfl)
    · match r with
      | .ok url =>
        exact exclInv_wardrobeLoading
          (exclInv_updateState (exclInv_errorOnly h none) (Or.inl rfl)) _ _
      | .error e => exact exclInv_errorLoading h _ _

lemma exclInv_handleRevertToLayer (i : Nat) {s : AppState} (h : ExclInv s) :
    ExclInv (handleRevertToLayer i s) :=
  exclInv_updateState h (Or.inl rfl)

lemma exclInv_handlePoseSelect (r : Except String String) (i : Nat)
    {s : AppState} (h : ExclInv s) : ExclInv (handlePoseSelect r i s).1 := by
  cases r with
  | ok url =>
    unfold handlePoseSelect
    split
    · exact h
    · split
      · exact h
      · dsimp only
        split
        · exact exclInv_updateState h (Or.inl rfl)
        · split
          · exact h
          · dsimp only
            refine exclInv_commitLike s _ _ h ?_ ?_ _ _
            · exact h.1
            · exact Or.inl rfl
  | error e =>
    unfold handlePoseSelect
    split
    · exact h
    · split
      · exact h
      · dsimp only
        split
        · exact exclInv_updateState h (Or.inl rfl)
        · split
          · exact h
          · exact exclInv_errorLoading h _ _

lemma exclInv_handleColorChangeAtIndex (r : Except String String) (i : Nat)
    (c : String) {s : AppState} (h : ExclInv s) :
    ExclInv (handleColorChangeAtIndex r i c s).1 := by
  cases r with
  | ok url =>
    unfold handleColorChangeAtIndex
    dsimp only
    split
    · exact h
    · exact exclInv_loadingOnly
        (exclInv_updateState (exclInv_errorOnly h none) (Or.inl rfl)) _
  | error e =>
    unfold handleColorChangeAtIndex
    dsimp only
    split
    · exact h
    · exact exclInv_errorLoading h _ _

lemma exclInv_handleMagicWandEditAtIndex (r : Except String String) (i : Nat)
    (ins : String) {s : AppState} (h : ExclInv s) :
    ExclInv (handleMagicWandEditAtIndex r i ins s).1 := by
  cases r with
  | ok url =>
    unfold handleMagicWandEditAtIndex
    dsimp only
    split
    · exact h
    · exact exclInv_loadingOnly
        (exclInv_updateState (exclInv_errorOnly h none) (Or.inl rfl)) _
  | error e =>
    unfold handleMagicWandEditAtIndex
    dsimp only
    split
    · exact h
    · exact exclInv_errorLoading h _ _

lemma exclInv_handleBackgroundChange (r : Except String String) (p : String)
    {s : AppState} (h : ExclInv s) : ExclInv (handleBackgroundChange r p s).1 := by
  cases r with
  | ok url =>
    unfold handleBackgroundChange
    split
    · exact h
    · split
      · exact exclInv_updateState h (Or.inl rfl)
      · dsimp only
        split
        · exact exclInv_errorOnly h _
        · dsimp only
          refine exclInv_commitLike s _ _ h ?_ ?_ _ _
          · exact h.1
          · exact Or.inr rfl
  | error e =>
    unfold handleBackgroundChange
    split
    · exact h
    · split
      · exact exclInv_updateState h (Or.inl rfl)
      · dsimp only
        split
        · exact exclInv_errorOnly h _
        · exact exclInv_errorLoading h _ _

lemma exclInv_handleLightingChange (r : Except String String) (p : String)
    {s : AppState} (h : ExclInv s) : ExclInv (handleLightingChange r p s).1 := by
  cases r with
  | ok url =>
    unfold handleLightingChange
    split
    · exact h
    · split
      · exact exclInv_updateState h (Or.inr rfl)
      · dsimp only
        split
        · exact exclInv_errorOnly h _
        · dsimp only
          refine exclInv_commitLike s _ _ h ?_ ?_ _ _
          · exact h.1
          · exact Or.inl rfl
  | error e =>
    unfold handleLightingChange
    split
    · exact h
    · split
      · exact exclInv_updateState h (Or.inr rfl)
      · dsimp only
        split
        · exact exclInv_errorOnly h _
        · exact exclInv_errorLoading h _ _

lemma exclInv_handleGenerateLookbook (r : Except String String) {s : AppState}
    (h : ExclInv s) : ExclInv (handleGenerateLookbook r s).1 := by
  unfold handleGenerateLookbook
  split
  · exact exclInv_errorOnly h _
  · dsimp only
    split
    · match r with
      | .ok url => exact exclInv_congr h rfl rfl rfl rfl
      | .error e => exact exclInv_errorLoading h _ _
    · exact exclInv_errorLoading h _ _

lemma exclInv_handleImageCrop (url : String) {s : AppState} (h : ExclInv s) :
    ExclInv (handleImageCrop url s) := by
  unfold handleImageCrop
  split
  · exact h
  · exact exclInv_updateState h (Or.inl rfl)

lemma exclInv_handleModelFinalized (url : String) {s : AppState}
    (h : ExclInv s) : ExclInv (handleModelFinalized url s) := by
  refine ⟨h.1, ?_, ?_⟩ <;> intro snap hsnap <;> cases hsnap

lemma exclInv_initialState : ExclInv initialState := by
  refine ⟨Or.inl rfl, ?_, ?_⟩ <;> intro snap hsnap <;> cases hsnap

lemma exclInv_handleUndo {s : AppState} (h : ExclInv s) :
    ExclInv (handleUndo s) := by
  unfold handleUndo
  split
  · exact h
  next lastState heq =>
    have hmem : lastState ∈ s.undoStack := by
      rw [List.getLast?_eq_some_iff] at heq
      obtain ⟨l', hl⟩ := heq
      rw [hl]; simp
    refine ⟨?_, ?_, ?_⟩
    · exact h.2.1 lastState hmem
    · intro snap hsnap
      exact h.2.1 snap (List.dropLast_subset _ hsnap)
    · intro snap hsnap
      rcases List.mem_append.1 hsnap with hmem2 | hmem2
      · exact h.2.2 snap hmem2
      · rcases List.mem_singleton.1 hmem2 with rfl
        exact h.1

lemma exclInv_handleRedo {s : AppState} (h : ExclInv s) :
    ExclInv (handleRedo s) := by
  unfold handleRedo
  split
  · exact h
  next nextState heq =>
    have hmem : nextState ∈ s.redoStack := by
      rw [List.getLast?_eq_some_iff] at heq
      obtain ⟨l', hl⟩ := heq
      rw [hl]; simp
    refine ⟨?_, ?_, ?_⟩
    · exact h.2.2 nextState hmem
    · intro snap hsnap
      rcases List.mem_append.1 hsnap with hmem2 | hmem2
      · exact h.2.1 snap hmem2
      · rcases List.mem_singleton.1 hmem2 with rfl
        exact h.1
    · intro snap hsnap
      exact h.2.2 snap (List.dropLast_subset _ hsnap)

lemma exclInv_step {s s' : AppState} (h : ExclInv s) (hstep : Step s s') :
    ExclInv s' := by
  cases hstep with
  | modelFinalized url s => exact exclInv_handleModelFinalized url h
  | startOver s => exact exclInv_initialState
  | garmentSelect r g s => exact exclInv_handleGarmentSelect r g h
  | revertToLayer i s => exact exclInv_handleRevertToLayer i h
  | poseSelect r i s => exact exclInv_handlePoseSelect r i h
  | colorChange r i c s => exact exclInv_handleColorChangeAtIndex r i c h
  | backgroundChange r p s => exact exclInv_handleBackgroundChange r p h
  | lightingChange r p s => exact exclInv_handleLightingChange r p h
  | magicWand r i ins s => exact exclInv_handleMagicWandEditAtIndex r i ins h
  | lookbook r s => exact exclInv_handleGenerateLookbook r h
  | crop url s => exact exclInv_handleImageCrop url h
  | undo s => exact exclInv_handleUndo h
  | redo s => exact exclInv_handleRedo h

lemma exclInv_reachable {s : AppState} (h : Reachable s) : ExclInv s := by
  induction h with
  | init => exact exclInv_initialState
  | step _ hstep ih => exact exclInv_step ih hstep

lemma head?_take_pos {α : Type} {l : List α} {n : Nat} (hn : 0 < n) :
    (l.take n).head? = l.head? := by
  cases l with
  | nil => simp
  | cons a t =>
    cases n with
    | zero => omega
    | succ m => simp

lemma baseInv_congr {s t : AppState} (h : BaseInv s)
    (hh : t.outfitHistory = s.outfitHistory)
    (hc : t.currentOutfitIndex = s.currentOutfitIndex) : BaseInv t := by
  unfold BaseInv at *
  rw [hh, hc]; exact h

lemma lt_of_reselectHit {g : WardrobeItem} {s : AppState}
    (h : reselectHit g s = true) :
    s.currentOutfitIndex + 1 < s.outfitHistory.length := by
  unfold reselectHit at h
  cases heq : s.outfitHistory.get? (s.currentOutfitIndex + 1) with
  | none => rw [heq] at h; cases h
  | some nextLayer =>
    rw [List.get?_eq_some] at heq
    exact heq.1

lemma baseInv_handleGarmentSelect (r : Except String String) (g : WardrobeItem)
    {s : AppState} (h : BaseInv s) : BaseInv (handleGarmentSelect r g s).1 := by
  obtain ⟨hne, hhead, hlen⟩ := h
  cases r with
  | ok url =>
    unfold handleGarmentSelect
    split
    · exact ⟨hne, hhead, hlen⟩
    · split
      next hres =>
        refine ⟨hne, hhead, ?_⟩
        exact lt_of_reselectHit hres
      · dsimp only
        have htk : (s.outfitHistory.take (s.currentOutfitIndex + 1)).length =
            s.currentOutfitIndex + 1 := List.length_take_of_le hlen
        have htkne : s.outfitHistory.take (s.currentOutfitIndex + 1) ≠ [] := by
          rw [← List.length_pos, htk]; omega
        refine ⟨?_, ?_, ?_⟩
        · intro hcon
          exact htkne (List.append_eq_nil.1 hcon).1
        · show ((s.outfitHistory.take (s.currentOutfitIndex + 1) ++ _).head?.map
            (fun l => l.garment)) = some none
          rw [List.head?_append_of_ne_nil _ htkne, head?_take_pos (by omega)]
          exact hhead
        · show (s.outfitHistory.take (s.currentOutfitIndex + 1)).length + 1 ≤
            (s.outfitHistory.take (s.currentOutfitIndex + 1) ++ _).length
          rw [List.length_append]
          simp
  | error e =>
    unfold handleGarmentSelect
    split
    · exact ⟨hne, hhead, hlen⟩
    · split
      next hres =>
        refine ⟨hne, hhead, ?_⟩
        exact lt_of_reselectHit hres
      · exact ⟨hne, hhead, hlen⟩

lemma baseInv_handleRevertToLayer {i : Nat} {s : AppState} (h : BaseInv s)
    (h1 : 1 ≤ i) (h2 : i ≤ s.currentOutfitIndex) :
    BaseInv (handleRevertToLayer i s) := by
  obtain ⟨hne, hhead, hlen⟩ := h
  have hile : i ≤ s.outfitHistory.length := by omega
  have htk : (s.outfitHistory.take i).length = i := List.length_take_of_le hile
  refine ⟨?_, ?_, ?_⟩
  · show s.outfitHistory.take i ≠ []
    rw [← List.length_pos, htk]; omega
  · show ((s.outfitHistory.take i).head?.map (fun l => l.garment)) = some none
    rw [head?_take_pos (by omega)]
    exact hhead
  · show (i - 1) + 1 ≤ (s.outfitHistory.take i).length
    rw [htk]; omega

lemma baseInv_garmentRevertReachable {s : AppState}
    (h : GarmentRevertReachable s) : BaseInv s := by
  induction h with
  | init url =>
    refine ⟨?_, ?_, ?_⟩ <;> simp [handleModelFinalized, initialState]
  | step _ hstep ih =>
    cases hstep with
    | garmentSelect r g s => exact baseInv_handleGarmentSelect r g ih
    | revertToLayer i s h1 h2 => exact baseInv_handleRevertToLayer ih h1 h2

lemma failureAtomic_garment (g : WardrobeItem) (s : AppState) (e : String) :
    (handleGarmentSelect (.error e) g s).2 = true →
      FailureAtomicSpec (handleGarmentSelect (.error e) g s).1 s := by
  unfold handleGarmentSelect
  split
  · intro h2; simp at h2
  · split
    · intro h2; simp at h2
    · intro _; exact ⟨rfl, rfl, rfl⟩

lemma failureAtomic_pose (j : Nat) (s : AppState) (e : String) :
    (handlePoseSelect (.error e) j s).2 = true →
      FailureAtomicSpec (handlePoseSelect (.error e) j s).1 s ∧
      (handlePoseSelect (.error e) j s).1.currentPoseIndex = s.currentPoseIndex := by
  unfold handlePoseSelect
  split
  · intro h2; simp at h2
  · split
    · intro h2; simp at h2
    · dsimp only
      split
      · intro h2; simp at h2
      · split
        · intro h2; simp at h2
        · intro _; exact ⟨⟨rfl, rfl, rfl⟩, rfl⟩

lemma failureAtomic_color (i : Nat) (c : String) (s : AppState) (e : String) :
    (handleColorChangeAtIndex (.error e) i c s).2 = true →
      FailureAtomicSpec (handleColorChangeAtIndex (.error e) i c s).1 s := by
  unfold handleColorChangeAtIndex
  dsimp only
  split
  · intro h2; simp at h2
  · intro _; exact ⟨rfl, rfl, rfl⟩

lemma failureAtomic_magicWand (i : Nat) (ins : String) (s : AppState) (e : String) :
    (handleMagicWandEditAtIndex (.error e) i ins s).2 = true →
      FailureAtomicSpec (handleMagicWandEditAtIndex (.error e) i ins s).1 s := by
  unfold handleMagicWandEditAtIndex
  dsimp only
  split
  · intro h2; simp at h2
  · intro _; exact ⟨rfl, rfl, rfl⟩

lemma failureAtomic_background (p : String) (s : AppState) (e : String) :
    (handleBackgroundChange (.error e) p s).2 = true →
      FailureAtomicSpec (handleBackgroundChange (.error e) p s).1 s := by
  unfold handleBackgroundChange
  split
  · intro h2; simp at h2
  · split
    · intro h2; simp at h2
    · dsimp only
      split
      · intro h2; simp at h2
      · intro _; exact ⟨rfl, rfl, rfl⟩

lemma failureAtomic_lighting (p : String) (s : AppState) (e : String) :
    (handleLightingChange (.error e) p s).2 = true →
      FailureAtomicSpec (handleLightingChange (.error e) p s).1 s := by
  unfold handleLightingChange
  split
  · intro h2; simp at h2
  · split
    · intro h2; simp at h2
    · dsimp only
      split
      · intro h2; simp at h2
      · intro _; exact ⟨rfl, rfl, rfl⟩

lemma failureAtomic_lookbook (s : AppState) (e : String) :
    (handleGenerateLookbook (.error e) s).2 = true →
      FailureAtomicSpec (handleGenerateLookbook (.error e) s).1 s := by
  unfold handleGenerateLookbook
  split
  · intro h2; simp at h2
  · dsimp only
    split
    · intro _; exact ⟨rfl, rfl, rfl⟩
    · intro h2; simp at h2

/-- C1: the round-trip claim FAILS on the code.  After a pose-generating
pose-select from the freshly finalized model state, `handleUndo` does not
restore the pre-operation snapshot: the success reducer copies the layer with
a spread but writes the new pose entry into the `poseImages` object that the
captured undo snapshot still references, so the snapshot on the undo stack —
shown in the second conjunct — already contains the generated entry. -/
theorem poseSelect_undo_alters_snapshot :
    (getCurrentStateSnapshot
        (handleUndo (handlePoseSelect (Except.ok "data:pose1") 1 modelReadyState).1) ≠
      getCurrentStateSnapshot modelReadyState) ∧
    ((handlePoseSelect (Except.ok "data:pose1") 1 modelReadyState).1.undoStack.map
        (fun snap => snap.outfitHistory.map (fun l => l.poseImages)) =
      [[[(poseKeyOf 0, "data:model"), (poseKeyOf 1, "data:pose1")]]]) := by
  constructor
  · decide
  · decide

/-- C2 counterexample: crop does truncate the history layers after the
cursor.  In `dormantState` (cursor 0, a dormant layer at index 1) a committed
crop drops the dormant layer entirely, instead of leaving it unchanged as the
claim states. -/
theorem crop_truncates_dormant_layer :
    dormantState.outfitHistory.get? 1 = some sampleLayer1 ∧
    (handleImageCrop "data:cropped" dormantState).outfitHistory.get? 1 ≠
      dormantState.outfitHistory.get? 1 ∧
    (handleImageCrop "data:cropped" dormantState).outfitHistory.length = 1 := by
  refine ⟨by decide, by decide, by decide⟩

/-- C2 (amended): a committed crop replaces the currently active layer —
its `poseImages` becomes the single entry at the current pose key and its
modifier caches become empty — keeps the cursor and the pose index, resets
both modifiers, and truncates the history to `cursor + 1`, dropping every
layer after the cursor (the same truncation shape as a color change at the
cursor index). -/
theorem crop_replaces_current_layer (s : AppState) (url : String)
    (hurl : url ≠ "") : CropSpec s url := by
  unfold CropSpec handleImageCrop
  split
  next hc => exact absurd (by simpa using hc) hurl
  · exact ⟨rfl, rfl, rfl, rfl, rfl, rfl, rfl⟩

/-- C2 witness: the amended crop behaviour evaluated on the concrete dormant
state. -/
theorem crop_replaces_current_layer_witness :
    ("data:cropped" ≠ "") ∧ CropSpec dormantState "data:cropped" :=
  ⟨by decide, crop_replaces_current_layer dormantState "data:cropped" (by decide)⟩

/-- C5: when the layer just ahead of the cursor carries the selected
garment's id, apply-garment is a redo-by-reselection for ANY remote oracle
`r`: the history and wardrobe are untouched, the cursor advances by one, the
pose index and both modifiers reset, and the remote generator is not invoked
(`.2 = false`). -/
theorem garment_reselection (r : Except String String) (g : WardrobeItem)
    (s : AppState) (hd : truthy (displayImageUrl s) = true)
    (hb : s.isLoading = false) (hres : reselectHit g s = true) :
    ReselectSpec (handleGarmentSelect r g s).1 s ∧
    (handleGarmentSelect r g s).2 = false := by
  unfold handleGarmentSelect
  split
  next hc => rw [hd, hb] at hc; simp at hc
  next => exact ⟨⟨rfl, rfl, rfl, rfl, rfl, rfl, rfl, rfl⟩, rfl⟩

/-- C5 witness: reselecting `sampleGarment`, whose layer sits at index 1 just
ahead of the cursor in `dormantState`, with a failing oracle that would blow
up any remote path. -/
theorem garment_reselection_witness :
    truthy (displayImageUrl dormantState) = true ∧
    dormantState.isLoading = false ∧
    reselectHit sampleGarment dormantState = true ∧
    (ReselectSpec
        (handleGarmentSelect (Except.error "never called") sampleGarment dormantState).1
        dormantState ∧
      (handleGarmentSelect (Except.error "never called") sampleGarment dormantState).2 =
        false) :=
  ⟨by decide, by decide, by decide,
    garment_reselection (Except.error "never called") sampleGarment dormantState
      (by decide) (by decide) (by decide)⟩

/-- C7 counterexample: the crop commit handler has no busy guard.  In the
busy state a crop request does not leave the application state unchanged —
it commits, contradicting the claim that every mutating operation request is
ignored while a generation is in flight. -/
theorem crop_commits_while_busy :
    busyState.isLoading = true ∧
    handleImageCrop "data:cropped" busyState ≠ busyState := by
  refine ⟨rfl, by decide⟩

/-- C7 (amended): while the busy flag is set, apply-garment, pose select,
color change, magic-wand edit, background change, lighting change and
lookbook generation are all ignored — state unchanged and no remote call,
except that the lookbook guard writes its error message.  Crop is the
exception: its commit handler carries no busy guard (its UI entry points are
hidden while busy), as the counterexample shows. -/
theorem busy_requests_ignored (s : AppState) (r : Except String String)
    (g : WardrobeItem) (i j : Nat) (c ins p q : String)
    (hbusy : s.isLoading = true) : BusyGateSpec s r g i j c ins p q := by
  refine ⟨?_, ?_, ?_, ?_, ?_, ?_, ?_⟩
  · simp [handleGarmentSelect, hbusy]
  · simp [handlePoseSelect, hbusy]
  · simp [handleColorChangeAtIndex, hbusy]
  · simp [handleMagicWandEditAtIndex, hbusy]
  · simp [handleBackgroundChange, hbusy]
  · simp [handleLightingChange, hbusy]
  · simp [handleGenerateLookbook, hbusy]

/-- C7 witness: the busy gate evaluated on the concrete busy state with
representative arguments for every operation. -/
theorem busy_requests_ignored_witness :
    busyState.isLoading = true ∧
    BusyGateSpec busyState (Except.ok "data:new") sampleGarment2 0 1 "red"
      "add buttons" "A serene beach at sunset" "Warm, golden hour lighting" :=
  ⟨rfl, busy_requests_ignored busyState (Except.ok "data:new") sampleGarment2 0 1
    "red" "add buttons" "A serene beach at sunset" "Warm, golden hour lighting" rfl⟩

lemma get?_append_singleton {α : Type} (l : List α) (a : α) {n : Nat}
    (h : l.length = n) : (l ++ [a]).get? n = some a := by
  subst h
  induction l with
  | nil => rfl
  | cons x t ih => simpa using ih

lemma mergeWardrobe_of_new {w : List WardrobeItem} {g : WardrobeItem}
    (hnew : ∀ item ∈ w, ¬(item.id = g.id)) : mergeWardrobe w g = w ++ [g] := by
  unfold mergeWardrobe
  have hany : w.any (fun item => item.id == g.id) = false := by
    rw [List.any_eq_false]
    intro x hx
    simpa using hnew x hx
  rw [hany]
  simp

lemma truthy_eq_isSome_of_values_ne_empty {m : List (String × String)}
    {k : String} (h : ∀ p ∈ m, p.2 ≠ "") :
    truthy (omLookup m k) = (omLookup m k).isSome := by
  unfold omLookup
  cases hf : m.find? (fun p => p.1 == k) with
  | none => rfl
  | some pr =>
    have hmem : pr ∈ m := List.mem_of_find?_eq_some hf
    have hpr : pr.2 ≠ "" := h pr hmem
    simp [truthy, hpr]

/-- C3: for a history with layers beyond `index + 1` (indeed for any history
where the edited layer and its base image exist), a successful color change
or magic-wand edit at `index` truncates the history to length `index + 1`,
rebuilds the layer at `index` with the single default-pose entry and empty
caches, moves the cursor to `index`, and resets the pose index and both
modifiers. -/
theorem remote_edit_truncates (s : AppState) (index : Nat)
    (newColor instruction newImageUrl : String)
    (hb : s.isLoading = false)
    (hlen : index + 1 < s.outfitHistory.length)
    (hbase : truthy ((s.outfitHistory.get? index).bind (fun layerToEdit =>
      (omLookup layerToEdit.poseImages (poseKeyOf 0)) <|>
        omFirst layerToEdit.poseImages)) = true) :
    RemoteEditTruncationSpec
        (handleColorChangeAtIndex (Except.ok newImageUrl) index newColor s).1 s
        index newImageUrl ∧
    RemoteEditTruncationSpec
        (handleMagicWandEditAtIndex (Except.ok newImageUrl) index instruction s).1 s
        index newImageUrl := by
  have hile : index ≤ s.outfitHistory.length := by omega
  have htk : (s.outfitHistory.take index).length = index :=
    List.length_take_of_le hile
  constructor
  · unfold handleColorChangeAtIndex
    dsimp only
    split
    next hc => rw [hbase, hb] at hc; simp at hc
    next =>
      refine ⟨?_, ?_, rfl, rfl, rfl, rfl⟩
      · show (s.outfitHistory.take index ++ _).length = index + 1
        rw [List.length_append, htk, List.length_singleton]
      · exact get?_append_singleton _ _ htk
  · unfold handleMagicWandEditAtIndex
    dsimp only
    split
    next hc => rw [hbase, hb] at hc; simp at hc
    next =>
      refine ⟨?_, ?_, rfl, rfl, rfl, rfl⟩
      · show (s.outfitHistory.take index ++ _).length = index + 1
        rw [List.length_append, htk, List.length_singleton]
      · exact get?_append_singleton _ _ htk

/-- C3 witness: a color change and a magic-wand edit at index 0 of the
two-layer `dormantState`, evaluated concretely. -/
theorem remote_edit_truncates_witness :
    dormantState.isLoading = false ∧
    0 + 1 < dormantState.outfitHistory.length ∧
    truthy ((dormantState.outfitHistory.get? 0).bind (fun layerToEdit =>
      (omLookup layerToEdit.poseImages (poseKeyOf 0)) <|>
        omFirst layerToEdit.poseImages)) = true ∧
    (RemoteEditTruncationSpec
        (handleColorChangeAtIndex (Except.ok "data:tinted") 0 "red" dormantState).1
        dormantState 0 "data:tinted" ∧
      RemoteEditTruncationSpec
        (handleMagicWandEditAtIndex
          (Except.ok "data:tinted") 0 "add buttons" dormantState).1
        dormantState 0 "data:tinted") :=
  ⟨rfl, by decide, by decide,
    remote_edit_truncates dormantState 0 "red" "add buttons" "data:tinted" rfl
      (by decide) (by decide)⟩

/-- C4: modifier exclusivity.  In every reachable state at most one of
`activeBackground` / `activeLighting` differs from `"Default"`; a successful
non-default background change installs the prompt and forces lighting to
`"Default"` (and symmetrically for lighting); selecting `"Default"` for one
modifier resets only that modifier and leaves the other unchanged. -/
theorem modifier_exclusivity :
    (∀ s : AppState, Reachable s →
      ¬(s.activeBackground ≠ "Default" ∧ s.activeLighting ≠ "Default")) ∧
    (∀ (s : AppState) (p url : String), p ≠ "Default" → s.isLoading = false →
      truthy ((s.outfitHistory.get? s.currentOutfitIndex).bind (fun currentLayer =>
        omLookup currentLayer.poseImages (poseKeyOf s.currentPoseIndex))) = true →
      (handleBackgroundChange (Except.ok url) p s).1.activeBackground = p ∧
      (handleBackgroundChange (Except.ok url) p s).1.activeLighting = "Default") ∧
    (∀ (s : AppState) (p url : String), p ≠ "Default" → s.isLoading = false →
      truthy ((s.outfitHistory.get? s.currentOutfitIndex).bind (fun currentLayer =>
        omLookup currentLayer.poseImages (poseKeyOf s.currentPoseIndex))) = true →
      (handleLightingChange (Except.ok url) p s).1.activeLighting = p ∧
      (handleLightingChange (Except.ok url) p s).1.activeBackground = "Default") ∧
    (∀ (s : AppState) (r : Except String String), s.isLoading = false →
      (handleBackgroundChange r "Default" s).1.activeBackground = "Default" ∧
      (handleBackgroundChange r "Default" s).1.activeLighting = s.activeLighting) ∧
    (∀ (s : AppState) (r : Except String String), s.isLoading = false →
      (handleLightingChange r "Default" s).1.activeLighting = "Default" ∧
      (handleLightingChange r "Default" s).1.activeBackground = s.activeBackground) := by
  refine ⟨?_, ?_, ?_, ?_, ?_⟩
  · intro s hs hcon
    rcases (exclInv_reachable hs).1 with h | h
    · exact hcon.1 h
    · exact hcon.2 h
  · intro s p url hp hb hbase
    unfold handleBackgroundChange
    split
    next hc => rw [hb] at hc; cases hc
    · split
      next hc => exact absurd (by simpa using hc) hp
      · dsimp only
        split
        next hc => rw [hbase] at hc; simp at hc
        next => exact ⟨rfl, rfl⟩
  · intro s p url hp hb hbase
    unfold handleLightingChange
    split
    next hc => rw [hb] at hc; cases hc
    · split
      next hc => exact absurd (by simpa using hc) hp
      · dsimp only
        split
        next hc => rw [hbase] at hc; simp at hc
        next => exact ⟨rfl, rfl⟩
  · intro s r hb
    unfold handleBackgroundChange
    split
    next hc => rw [hb] at hc; cases hc
    · split
      next => exact ⟨rfl, rfl⟩
      next hc => simp at hc
  · intro s r hb
    unfold handleLightingChange
    split
    next hc => rw [hb] at hc; cases hc
    · split
      next => exact ⟨rfl, rfl⟩
      next hc => simp at hc

/-- C4 witness: the invariant at the initial state, a concrete non-default
background change over the model-ready state, a concrete non-default
lighting change, and the two `"Default"` short-circuits. -/
theorem modifier_exclusivity_witness :
    (¬(initialState.activeBackground ≠ "Default" ∧
        initialState.activeLighting ≠ "Default")) ∧
    ((handleBackgroundChange (Except.ok "data:bg") "A serene beach at sunset"
        modelReadyState).1.activeBackground = "A serene beach at sunset" ∧
      (handleBackgroundChange (Except.ok "data:bg") "A serene beach at sunset"
        modelReadyState).1.activeLighting = "Default") ∧
    ((handleLightingChange (Except.ok "data:lt") "Warm, golden hour lighting"
        modelReadyState).1.activeLighting = "Warm, golden hour lighting" ∧
      (handleLightingChange (Except.ok "data:lt") "Warm, golden hour lighting"
        modelReadyState).1.activeBackground = "Default") ∧
    ((handleBackgroundChange (Except.ok "data:bg") "Default"
        modelReadyState).1.activeBackground = "Default" ∧
      (handleBackgroundChange (Except.ok "data:bg") "Default"
        modelReadyState).1.activeLighting = modelReadyState.activeLighting) ∧
    ((handleLightingChange (Except.ok "data:lt") "Default"
        modelReadyState).1.activeLighting = "Default" ∧
      (handleLightingChange (Except.ok "data:lt") "Default"
        modelReadyState).1.activeBackground = modelReadyState.activeBackground) :=
  ⟨modifier_exclusivity.1 initialState Reachable.init,
    modifier_exclusivity.2.1 modelReadyState "A serene beach at sunset" "data:bg"
      (by decide) rfl (by decide),
    modifier_exclusivity.2.2.1 modelReadyState "Warm, golden hour lighting" "data:lt"
      (by decide) rfl (by decide),
    modifier_exclusivity.2.2.2.1 modelReadyState (Except.ok "data:bg") rfl,
    modifier_exclusivity.2.2.2.2 modelReadyState (Except.ok "data:lt") rfl⟩

/-- C6: under every sequence of apply-garment and revert-to-layer operations
from a freshly finalized model, the active-layers projection is the history
prefix of length exactly `currentOutfitIndex + 1` and its first element is
the base layer (garment `none`). -/
theorem active_layers_base_prefix (s : AppState)
    (h : GarmentRevertReachable s) :
    (activeOutfitLayers s).length = s.currentOutfitIndex + 1 ∧
    ((activeOutfitLayers s).head?.map (fun l => l.garment)) = some none := by
  obtain ⟨hne, hhead, hlen⟩ := baseInv_garmentRevertReachable h
  refine ⟨List.length_take_of_le hlen, ?_⟩
  show ((s.outfitHistory.take (s.currentOutfitIndex + 1)).head?.map
    (fun l => l.garment)) = some none
  rw [head?_take_pos (by omega)]
  exact hhead

/-- C6 witness: the projection evaluated right after model finalization. -/
theorem active_layers_base_prefix_witness :
    (activeOutfitLayers modelReadyState).length =
        modelReadyState.currentOutfitIndex + 1 ∧
    ((activeOutfitLayers modelReadyState).head?.map (fun l => l.garment)) =
      some none :=
  active_layers_base_prefix modelReadyState
    (GarmentRevertReachable.init "data:model")

/-- C8: whenever a remote-backed operation actually invoked the generator
(`.2 = true`) and the call failed, the snapshot-managed fields and both
stacks are exactly those of the pre-state; for pose select the optimistically
advanced pose index ends up rolled back to its pre-call value. -/
theorem failed_generation_atomic (s : AppState) (g : WardrobeItem)
    (i j : Nat) (c ins p q e : String) :
    ((handleGarmentSelect (Except.error e) g s).2 = true →
      FailureAtomicSpec (handleGarmentSelect (Except.error e) g s).1 s) ∧
    ((handlePoseSelect (Except.error e) j s).2 = true →
      FailureAtomicSpec (handlePoseSelect (Except.error e) j s).1 s ∧
      (handlePoseSelect (Except.error e) j s).1.currentPoseIndex =
        s.currentPoseIndex) ∧
    ((handleColorChangeAtIndex (Except.error e) i c s).2 = true →
      FailureAtomicSpec (handleColorChangeAtIndex (Except.error e) i c s).1 s) ∧
    ((handleMagicWandEditAtIndex (Except.error e) i ins s).2 = true →
      FailureAtomicSpec (handleMagicWandEditAtIndex (Except.error e) i ins s).1 s) ∧
    ((handleBackgroundChange (Except.error e) p s).2 = true →
      FailureAtomicSpec (handleBackgroundChange (Except.error e) p s).1 s) ∧
    ((handleLightingChange (Except.error e) q s).2 = true →
      FailureAtomicSpec (handleLightingChange (Except.error e) q s).1 s) ∧
    ((handleGenerateLookbook (Except.error e) s).2 = true →
      FailureAtomicSpec (handleGenerateLookbook (Except.error e) s).1 s) :=
  ⟨failureAtomic_garment g s e, failureAtomic_pose j s e,
    failureAtomic_color i c s e, failureAtomic_magicWand i ins s e,
    failureAtomic_background p s e, failureAtomic_lighting q s e,
    failureAtomic_lookbook s e⟩

/-- C8 witness: every remote-backed operation driven into its failing remote
branch on concrete states (`modelReadyState`, and a two-active-layer state
for the lookbook). -/
theorem failed_generation_atomic_witness :
    ((handleGarmentSelect (Except.error "boom") sampleGarment2
        modelReadyState).2 = true ∧
      FailureAtomicSpec (handleGarmentSelect (Except.error "boom") sampleGarment2
        modelReadyState).1 modelReadyState) ∧
    ((handlePoseSelect (Except.error "boom") 1 modelReadyState).2 = true ∧
      (FailureAtomicSpec (handlePoseSelect (Except.error "boom") 1
          modelReadyState).1 modelReadyState ∧
        (handlePoseSelect (Except.error "boom") 1 modelReadyState).1.currentPoseIndex =
          modelReadyState.currentPoseIndex)) ∧
    ((handleColorChangeAtIndex (Except.error "boom") 0 "red"
        modelReadyState).2 = true ∧
      FailureAtomicSpec (handleColorChangeAtIndex (Except.error "boom") 0 "red"
        modelReadyState).1 modelReadyState) ∧
    ((handleMagicWandEditAtIndex (Except.error "boom") 0 "add buttons"
        modelReadyState).2 = true ∧
      FailureAtomicSpec (handleMagicWandEditAtIndex (Except.error "boom") 0
        "add buttons" modelReadyState).1 modelReadyState) ∧
    ((handleBackgroundChange (Except.error "boom") "A serene beach at sunset"
        modelReadyState).2 = true ∧
      FailureAtomicSpec (handleBackgroundChange (Except.error "boom")
        "A serene beach at sunset" modelReadyState).1 modelReadyState) ∧
    ((handleLightingChange (Except.error "boom") "Warm, golden hour lighting"
        modelReadyState).2 = true ∧
      FailureAtomicSpec (handleLightingChange (Except.error "boom")
        "Warm, golden hour lighting" modelReadyState).1 modelReadyState) ∧
    ((handleGenerateLookbook (Except.error "boom")
        { dormantState with currentOutfitIndex := 1 }).2 = true ∧
      FailureAtomicSpec (handleGenerateLookbook (Except.error "boom")
        { dormantState with currentOutfitIndex := 1 }).1
        { dormantState with currentOutfitIndex := 1 }) :=
  ⟨⟨by decide, (failed_generation_atomic modelReadyState sampleGarment2 0 1 "red"
      "add buttons" "A serene beach at sunset" "Warm, golden hour lighting"
      "boom").1 (by decide)⟩,
    ⟨by decide, (failed_generation_atomic modelReadyState sampleGarment2 0 1 "red"
      "add buttons" "A serene beach at sunset" "Warm, golden hour lighting"
      "boom").2.1 (by decide)⟩,
    ⟨by decide, (failed_generation_atomic modelReadyState sampleGarment2 0 1 "red"
      "add buttons" "A serene beach at sunset" "Warm, golden hour lighting"
      "boom").2.2.1 (by decide)⟩,
    ⟨by decide, (failed_generation_atomic modelReadyState sampleGarment2 0 1 "red"
      "add buttons" "A serene beach at sunset" "Warm, golden hour lighting"
      "boom").2.2.2.1 (by decide)⟩,
    ⟨by decide, (failed_generation_atomic modelReadyState sampleGarment2 0 1 "red"
      "add buttons" "A serene beach at sunset" "Warm, golden hour lighting"
      "boom").2.2.2.2.1 (by decide)⟩,
    ⟨by decide, (failed_generation_atomic modelReadyState sampleGarment2 0 1 "red"
      "add buttons" "A serene beach at sunset" "Warm, golden hour lighting"
      "boom").2.2.2.2.2.1 (by decide)⟩,
    ⟨by decide, (failed_generation_atomic
      { dormantState with currentOutfitIndex := 1 } sampleGarment2 0 1 "red"
      "add buttons" "A serene beach at sunset" "Warm, golden hour lighting"
      "boom").2.2.2.2.2.2 (by decide)⟩⟩

/-- C9: with a non-empty history, a layer at the cursor, and image
references that are genuine non-empty strings, the derived display image
follows exactly the specified precedence — lighting cache entry for the
current pose first, then background cache entry, then the pose image with a
first-inserted fallback — as captured by `displayImageSpecRule`. -/
theorem displayImage_follows_spec (s : AppState) (layer : OutfitLayer)
    (hne : s.outfitHistory ≠ [])
    (hget : s.outfitHistory.get? s.currentOutfitIndex = some layer)
    (hlv : ∀ p ∈ layer.lightingModifiedImages, p.2 ≠ "")
    (hbv : ∀ p ∈ layer.backgroundModifiedImages, p.2 ≠ "") :
    displayImageUrl s = displayImageSpecRule layer (poseKeyOf s.currentPoseIndex)
      s.activeBackground s.activeLighting := by
  unfold displayImageUrl displayImageSpecRule
  have hemp : s.outfitHistory.isEmpty = false := by
    simpa [List.isEmpty_iff] using hne
  rw [hemp, hget]
  rw [if_neg Bool.false_ne_true]
  dsimp only
  rw [truthy_eq_isSome_of_values_ne_empty hlv,
    truthy_eq_isSome_of_values_ne_empty hbv]
  by_cases hA : s.activeLighting ≠ "Default" ∧
      (omLookup layer.lightingModifiedImages (poseKeyOf s.currentPoseIndex)).isSome = true
  · rw [if_pos hA, if_pos hA]
  · rw [if_neg hA, if_neg hA]
    by_cases hB : s.activeBackground ≠ "Default" ∧
        (omLookup layer.backgroundModifiedImages (poseKeyOf s.currentPoseIndex)).isSome = true
    · rw [if_pos hB, if_pos hB]
    · rw [if_neg hB, if_neg hB]
      cases omLookup layer.poseImages (poseKeyOf s.currentPoseIndex) <;> rfl

/-- C9 witness: the precedence evaluated on the freshly finalized model
state and its base layer. -/
theorem displayImage_follows_spec_witness :
    modelReadyState.outfitHistory ≠ [] ∧
    modelReadyState.outfitHistory.get? modelReadyState.currentOutfitIndex =
      some { garment := none
             poseImages := [(poseKeyOf 0, "data:model")]
             backgroundModifiedImages := []
             lightingModifiedImages := [] } ∧
    displayImageUrl modelReadyState =
      displayImageSpecRule
        { garment := none
          poseImages := [(poseKeyOf 0, "data:model")]
          backgroundModifiedImages := []
          lightingModifiedImages := [] }
        (poseKeyOf modelReadyState.currentPoseIndex)
        modelReadyState.activeBackground modelReadyState.activeLighting :=
  ⟨by decide, by decide,
    displayImage_follows_spec modelReadyState
      { garment := none
        poseImages := [(poseKeyOf 0, "data:model")]
        backgroundModifiedImages := []
        lightingModifiedImages := [] }
      (by decide) (by decide) (by decide) (by decide)⟩

/-- C10: the wardrobe catalog sits outside the undo/redo unit.  A successful
apply-garment that merges a new garment (no existing item shares its id)
followed by `handleUndo` restores the pre-operation snapshot — history,
cursor, pose index and modifiers — while the merged garment stays in the
wardrobe; and undo/redo never change the wardrobe of any state. -/
theorem wardrobe_outside_undo (s : AppState) (g : WardrobeItem) (url : String)
    (hd : truthy (displayImageUrl s) = true) (hb : s.isLoading = false)
    (hres : reselectHit g s = false)
    (hnew : ∀ item ∈ s.wardrobe, ¬(item.id = g.id)) :
    ((handleGarmentSelect (Except.ok url) g s).1.wardrobe = s.wardrobe ++ [g] ∧
      getCurrentStateSnapshot (handleUndo (handleGarmentSelect (Except.ok url) g s).1) =
        getCurrentStateSnapshot s ∧
      (handleUndo (handleGarmentSelect (Except.ok url) g s).1).wardrobe =
        s.wardrobe ++ [g]) ∧
    (∀ t : AppState, (handleUndo t).wardrobe = t.wardrobe ∧
      (handleRedo t).wardrobe = t.wardrobe) := by
  have hframe : ∀ t : AppState, (handleUndo t).wardrobe = t.wardrobe ∧
      (handleRedo t).wardrobe = t.wardrobe := by
    intro t
    constructor
    · unfold handleUndo
      split
      · rfl
      · rfl
    · unfold handleRedo
      split
      · rfl
      · rfl
  have hw : (handleGarmentSelect (Except.ok url) g s).1.wardrobe =
      s.wardrobe ++ [g] := by
    unfold handleGarmentSelect
    split
    next hc => rw [hd, hb] at hc; simp at hc
    next =>
      split
      next hc => rw [hres] at hc; exact absurd hc Bool.false_ne_true
      next =>
        show mergeWardrobe s.wardrobe g = s.wardrobe ++ [g]
        exact mergeWardrobe_of_new hnew
  have hu : (handleGarmentSelect (Except.ok url) g s).1.undoStack =
      s.undoStack ++ [getCurrentStateSnapshot s] := by
    unfold handleGarmentSelect
    split
    next hc => rw [hd, hb] at hc; simp at hc
    next =>
      split
      next hc => rw [hres] at hc; exact absurd hc Bool.false_ne_true
      next => rfl
  have hsnap : getCurrentStateSnapshot
      (handleUndo (handleGarmentSelect (Except.ok url) g s).1) =
      getCurrentStateSnapshot s := by
    unfold handleUndo
    rw [hu, List.getLast?_concat]
    rfl
  refine ⟨⟨hw, hsnap, ?_⟩, hframe⟩
  rw [(hframe (handleGarmentSelect (Except.ok url) g s).1).1, hw]

/-- C10 witness: applying the fresh `sampleGarment` to the model-ready state
(empty wardrobe) and undoing. -/
theorem wardrobe_outside_undo_witness :
    truthy (displayImageUrl modelReadyState) = true ∧
    reselectHit sampleGarment modelReadyState = false ∧
    (((handleGarmentSelect (Except.ok "data:look1") sampleGarment
          modelReadyState).1.wardrobe = modelReadyState.wardrobe ++ [sampleGarment] ∧
        getCurrentStateSnapshot (handleUndo (handleGarmentSelect
          (Except.ok "data:look1") sampleGarment modelReadyState).1) =
          getCurrentStateSnapshot modelReadyState ∧
        (handleUndo (handleGarmentSelect (Except.ok "data:look1") sampleGarment
          modelReadyState).1).wardrobe = modelReadyState.wardrobe ++ [sampleGarment]) ∧
      (∀ t : AppState, (handleUndo t).wardrobe = t.wardrobe ∧
        (handleRedo t).wardrobe = t.wardrobe)) :=
  ⟨by decide, by decide,
    wardrobe_outside_undo modelReadyState sampleGarment "data:look1" (by decide)
      rfl (by decide) (by intro item hitem; cases hitem)⟩
